import Mathlib

/-!
Shallow embedding of `PyXA/apps/Preview.py` (the Preview application wrapper):
the application handle, window handle, document handle and the batched
document-list wrapper, together with the scripting-bridge calls each method
issues.  Remote objects are modelled as records of their scriptable
attributes; every method of the module is a pure function that returns its
Python result together with the list of bridge calls it issues, in order.
-/

/-- A scalar scripting value as it appears inside a property dictionary. -/
inductive PyAtom where
  | str : String → PyAtom
  | bool : Bool → PyAtom
  | none : PyAtom
deriving DecidableEq

/-- A Python value as it crosses the scripting bridge in this module:
strings, booleans, `None`, property dictionaries, `AppKit.NSURL` file URLs
(carrying their filesystem path), the builtin class `str` itself (which the
source passes to a constructor at one point), and references to remote
documents (by id). -/
inductive PyVal where
  | str : String → PyVal
  | bool : Bool → PyVal
  | none : PyVal
  | dict : List (String × PyAtom) → PyVal
  | url : String → PyVal
  | typeStr : PyVal
  | ref : Nat → PyVal
deriving DecidableEq

/-- Whether a value is an `NSURL` file URL (URL-typed, as opposed to a raw
string). -/
def PyVal.isURL : PyVal → Bool
  | PyVal.url _ => true
  | _ => false

/-- Modelled from the spec: the Python `str()` conversion on the values that
appear in this module.  A file URL renders with the file scheme prepended to
its path, and the builtin class `str` renders as its class name (the exact
rendering of the class is irrelevant to the proofs; only that it is a fixed
string independent of any path argument). -/
def pyStrOf : PyVal → String
  | PyVal.str s => s
  | PyVal.url p => "file://" ++ p
  | PyVal.typeStr => "<class str>"
  | PyVal.bool b => if b then "True" else "False"
  | PyVal.none => "None"
  | PyVal.dict _ => ""
  | PyVal.ref _ => ""

/-- `AppKit.NSURL.alloc().initFileURLWithPath_(s)`: builds the canonical
file-URL value for the path string `s`. -/
def nsurlInitFileURLWithPath (s : String) : PyVal := PyVal.url s

/-- Modelled from the spec: `XABase.XAPath` (not under `src/`) is the
FilePath value type; its constructor wraps a filesystem location string into
the platform file-URL form and stores any non-string argument as given.
`xa_elem` is the wrapped platform value. -/
structure XAPath where
  xa_elem : PyVal
deriving DecidableEq

/-- The `XAPath` constructor applied to a Python value. -/
def XAPath.ofVal : PyVal → XAPath
  | PyVal.str s => ⟨nsurlInitFileURLWithPath s⟩
  | v => ⟨v⟩

/-- The remote object a bridge call is aimed at. -/
inductive BridgeTarget where
  | app : BridgeTarget
  | window : BridgeTarget
  | collection : BridgeTarget
  | document : Nat → BridgeTarget
deriving DecidableEq

/-- One call across the scripting bridge: a get-attribute query, a
set-attribute request, an action invocation, or the batched
get-attribute-for-each over a collection. -/
inductive BridgeCall where
  | getAttr : BridgeTarget → String → BridgeCall
  | setAttr : BridgeTarget → String → PyVal → BridgeCall
  | invokeAction : BridgeTarget → String → List PyVal → BridgeCall
  | batchGetAttr : String → BridgeCall
deriving DecidableEq

/-- Whether a bridge call is a pure get-attribute query. -/
def BridgeCall.isGetAttr : BridgeCall → Bool
  | BridgeCall.getAttr _ _ => true
  | _ => false

/-- The scriptable state of one remote Preview document: its id (for the
bridge reference) and its `name`, `path`, `modified` and `properties`
attributes. -/
structure RemoteDocument where
  docId : Nat
  docName : String
  docPath : String
  docModified : Bool
  docProps : List (String × PyAtom)
deriving DecidableEq

/-- The value the bridge returns for a get-attribute query on a remote
document. -/
def RemoteDocument.getAttr (d : RemoteDocument) (attr : String) : PyVal :=
  if attr = "name" then PyVal.str d.docName
  else if attr = "path" then PyVal.str d.docPath
  else if attr = "modified" then PyVal.bool d.docModified
  else if attr = "properties" then PyVal.dict d.docProps
  else PyVal.none

/-- The scriptable state of the remote Preview application. -/
structure RemoteApp where
  appFrontmost : Bool
  appName : String
  appVersion : String
deriving DecidableEq

/-- The scriptable state of one remote Preview window. -/
structure RemoteWindow where
  winProps : List (String × PyAtom)
  winFloating : Bool
  winModal : Bool
  winTitled : Bool
deriving DecidableEq

/-- `XAPreviewApplication`: the application handle; `xa_scel` is its remote
scripting counterpart. -/
structure XAPreviewApplication where
  xa_scel : RemoteApp
deriving DecidableEq

/-- `XAPreviewWindow`: a window handle; `xa_elem` is its remote counterpart. -/
structure XAPreviewWindow where
  xa_elem : RemoteWindow
deriving DecidableEq

/-- `XAPreviewDocument`: a document handle; `xa_elem` is its remote
counterpart. -/
structure XAPreviewDocument where
  xa_elem : RemoteDocument
deriving DecidableEq

/-- `XAPreviewDocumentList`: the batched list wrapper; `xa_elem` is the
remote collection of documents, in order. -/
structure XAPreviewDocumentList where
  xa_elem : List RemoteDocument
deriving DecidableEq

/-- `xa_elem.arrayByApplyingSelector_(sel)`: the single batched bridge call
that returns `sel` of every element of the collection, in element order. -/
def arrayByApplyingSelector (docs : List RemoteDocument) (sel : String) :
    List PyVal × BridgeCall :=
  (docs.map (fun d => d.getAttr sel), BridgeCall.batchGetAttr sel)

/-- `XAPreviewApplication.frontmost` (getter): returns
`self.xa_scel.frontmost()` — one get-attribute query, nothing else. -/
def XAPreviewApplication.frontmost (app : XAPreviewApplication) :
    Bool × XAPreviewApplication × List BridgeCall :=
  (app.xa_scel.appFrontmost, app, [BridgeCall.getAttr BridgeTarget.app "frontmost"])

/-- `XAPreviewApplication.name` (getter): returns `self.xa_scel.name()`. -/
def XAPreviewApplication.name (app : XAPreviewApplication) :
    String × XAPreviewApplication × List BridgeCall :=
  (app.xa_scel.appName, app, [BridgeCall.getAttr BridgeTarget.app "name"])

/-- `XAPreviewApplication.version` (getter): returns `self.xa_scel.version()`. -/
def XAPreviewApplication.version (app : XAPreviewApplication) :
    String × XAPreviewApplication × List BridgeCall :=
  (app.xa_scel.appVersion, app, [BridgeCall.getAttr BridgeTarget.app "version"])

/-- The `Union[str, AppKit.NSURL]` argument of `XAPreviewApplication.print`:
either a raw Python string or an `NSURL` file URL (carrying its path). -/
inductive AppPrintPath where
  | ofString : String → AppPrintPath
  | ofURL : String → AppPrintPath
deriving DecidableEq

/-- `XAPreviewApplication.print(path, show_prompt)`: when `path` is a string
it is first replaced by `AppKit.NSURL.alloc().initFileURLWithPath_(path)`;
then `self.xa_scel.print_printDialog_withProperties_(path, show_prompt, None)`
is issued. -/
def XAPreviewApplication.print (app : XAPreviewApplication)
    (path : AppPrintPath) (show_prompt : Bool) :
    XAPreviewApplication × List BridgeCall :=
  let p : PyVal :=
    match path with
    | AppPrintPath.ofString s => nsurlInitFileURLWithPath s
    | AppPrintPath.ofURL u => PyVal.url u
  (app, [BridgeCall.invokeAction BridgeTarget.app
    "print_printDialog_withProperties_" [p, PyVal.bool show_prompt, PyVal.none]])

/-- `XAPreviewWindow.properties` (getter): returns `self.xa_elem.properties()`. -/
def XAPreviewWindow.properties (w : XAPreviewWindow) :
    List (String × PyAtom) × XAPreviewWindow × List BridgeCall :=
  (w.xa_elem.winProps, w, [BridgeCall.getAttr BridgeTarget.window "properties"])

/-- `XAPreviewWindow.floating` (getter): returns `self.xa_elem.floating()`. -/
def XAPreviewWindow.floating (w : XAPreviewWindow) :
    Bool × XAPreviewWindow × List BridgeCall :=
  (w.xa_elem.winFloating, w, [BridgeCall.getAttr BridgeTarget.window "floating"])

/-- `XAPreviewWindow.modal` (getter): returns `self.xa_elem.modal()`. -/
def XAPreviewWindow.modal (w : XAPreviewWindow) :
    Bool × XAPreviewWindow × List BridgeCall :=
  (w.xa_elem.winModal, w, [BridgeCall.getAttr BridgeTarget.window "modal"])

/-- `XAPreviewWindow.titled` (getter): returns `self.xa_elem.titled()`. -/
def XAPreviewWindow.titled (w : XAPreviewWindow) :
    Bool × XAPreviewWindow × List BridgeCall :=
  (w.xa_elem.winTitled, w, [BridgeCall.getAttr BridgeTarget.window "titled"])

/-- `XAPreviewDocument.properties` (getter): returns
`self.xa_elem.properties()`. -/
def XAPreviewDocument.properties (d : XAPreviewDocument) :
    List (String × PyAtom) × XAPreviewDocument × List BridgeCall :=
  (d.xa_elem.docProps, d,
    [BridgeCall.getAttr (BridgeTarget.document d.xa_elem.docId) "properties"])

/-- `XAPreviewDocument.name` (getter): returns `self.xa_elem.name()`. -/
def XAPreviewDocument.name (d : XAPreviewDocument) :
    String × XAPreviewDocument × List BridgeCall :=
  (d.xa_elem.docName, d,
    [BridgeCall.getAttr (BridgeTarget.document d.xa_elem.docId) "name"])

/-- `XAPreviewDocument.modified` (getter): returns `self.xa_elem.modified()`. -/
def XAPreviewDocument.modified (d : XAPreviewDocument) :
    Bool × XAPreviewDocument × List BridgeCall :=
  (d.xa_elem.docModified, d,
    [BridgeCall.getAttr (BridgeTarget.document d.xa_elem.docId) "modified"])

/-- `XAPreviewDocument.print(print_properties=None, show_dialog=True)`:
replaces a `None` property bag by the empty dictionary, then issues
`self.xa_elem.print_printDialog_withProperties_(self.xa_elem, show_dialog,
print_properties)` and returns `self`. -/
def XAPreviewDocument.print (d : XAPreviewDocument)
    (print_properties : Option (List (String × PyAtom))) (show_dialog : Bool) :
    XAPreviewDocument × List BridgeCall :=
  let pp : List (String × PyAtom) :=
    match print_properties with
    | Option.none => []
    | Option.some m => m
  (d, [BridgeCall.invokeAction (BridgeTarget.document d.xa_elem.docId)
    "print_printDialog_withProperties_"
    [PyVal.ref d.xa_elem.docId, PyVal.bool show_dialog, PyVal.dict pp]])

/-- `XAPreviewDocument.save(file_path=None)`: issues
`self.xa_elem.saveAs_in_(None, file_path)` — the first slot (the format) is
always `None`, the second slot (the destination) carries `file_path` exactly
as given. -/
def XAPreviewDocument.save (d : XAPreviewDocument)
    (file_path : Option String) : List BridgeCall :=
  [BridgeCall.invokeAction (BridgeTarget.document d.xa_elem.docId) "saveAs_in_"
    [PyVal.none,
      match file_path with
      | Option.none => PyVal.none
      | Option.some p => PyVal.str p]]

/-- `XAPreviewDocumentList.name()`: one batched
`arrayByApplyingSelector_("name")` call, returned as a Python list. -/
def XAPreviewDocumentList.name (l : XAPreviewDocumentList) :
    List PyVal × List BridgeCall :=
  let r := arrayByApplyingSelector l.xa_elem "name"
  (r.fst, [r.snd])

/-- `XAPreviewDocumentList.properties()`: one batched
`arrayByApplyingSelector_("properties")` call. -/
def XAPreviewDocumentList.properties (l : XAPreviewDocumentList) :
    List PyVal × List BridgeCall :=
  let r := arrayByApplyingSelector l.xa_elem "properties"
  (r.fst, [r.snd])

/-- `XAPreviewDocumentList.modified()`: one batched
`arrayByApplyingSelector_("modified")` call. -/
def XAPreviewDocumentList.modified (l : XAPreviewDocumentList) :
    List PyVal × List BridgeCall :=
  let r := arrayByApplyingSelector l.xa_elem "modified"
  (r.fst, [r.snd])

/-- `XAPreviewDocumentList.path()`: one batched
`arrayByApplyingSelector_("path")` call, each raw value then wrapped into an
`XABase.XAPath`. -/
def XAPreviewDocumentList.path (l : XAPreviewDocumentList) :
    List XAPath × List BridgeCall :=
  let r := arrayByApplyingSelector l.xa_elem "path"
  (r.fst.map XAPath.ofVal, [r.snd])

/-- Modelled from the spec: `XABase.XAList.by_property` (not under `src/`)
scans the collection for the first element whose named attribute equals the
given value and returns that element, or the absent value (`None`) when no
element matches. -/
def XAPreviewDocumentList.by_property (l : XAPreviewDocumentList)
    (attr : String) (value : PyVal) : Option XAPreviewDocument :=
  (l.xa_elem.find? (fun d => d.getAttr attr == value)).map
    (fun d => XAPreviewDocument.mk d)

/-- `XAPreviewDocumentList.by_name(name)`: `self.by_property("name", name)`. -/
def XAPreviewDocumentList.by_name (l : XAPreviewDocumentList)
    (name : String) : Option XAPreviewDocument :=
  l.by_property "name" (PyVal.str name)

/-- `XAPreviewDocumentList.by_modified(modified)`:
`self.by_property("modified", modified)`. -/
def XAPreviewDocumentList.by_modified (l : XAPreviewDocumentList)
    (modified : Bool) : Option XAPreviewDocument :=
  l.by_property "modified" (PyVal.bool modified)

/-- The `Union[str, XABase.XAPath]` argument of
`XAPreviewDocumentList.by_path`. -/
inductive ByPathArg where
  | ofString : String → ByPathArg
  | ofPath : XAPath → ByPathArg
deriving DecidableEq

/-- `XAPreviewDocumentList.by_path(path)`: the source reads

    if isinstance(path, str):
        path = XABase.XAPath(str)
    return self.by_property("path", str(path.xa_elem))

note that in the string branch the constructor is applied to the builtin
class `str` itself, not to the argument `path`; the embedding reproduces
this faithfully. -/
def XAPreviewDocumentList.by_path (l : XAPreviewDocumentList)
    (path : ByPathArg) : Option XAPreviewDocument :=
  let q : XAPath :=
    match path with
    | ByPathArg.ofString _ => XAPath.ofVal PyVal.typeStr
    | ByPathArg.ofPath q => q
  l.by_property "path" (PyVal.str (pyStrOf q.xa_elem))

/-- `XAPreviewDocumentList.get_clipboard_representation()`:
`paths = self.path()` then `[x.xa_elem for x in paths]`. -/
def XAPreviewDocumentList.get_clipboard_representation
    (l : XAPreviewDocumentList) : List PyVal × List BridgeCall :=
  let paths := l.path
  (paths.fst.map XAPath.xa_elem, paths.snd)

/-- A fixed fake-bridge collection used to instantiate the hypotheses of the
universally quantified theorems below. -/
def exampleDoc1 : RemoteDocument := ⟨1, "Example1.pdf", "/tmp/Example1.pdf", false, []⟩

/-- Second fixed fake-bridge document. -/
def exampleDoc2 : RemoteDocument := ⟨2, "Example2.pdf", "/tmp/Example2.pdf", true, []⟩

/-- The fake-bridge collection holding the two fixed documents, in order. -/
def exampleList : XAPreviewDocumentList := ⟨[exampleDoc1, exampleDoc2]⟩

/-- The fixed collection has at least one element. -/
theorem exampleList_len0 : 0 < exampleList.xa_elem.length := by decide

/-- The fixed collection has at least two elements. -/
theorem exampleList_len1 : 1 < exampleList.xa_elem.length := by decide

/-- A fake-bridge document whose raw `path` attribute equals the rendered
URL form of the path `/a.pdf`, exposing the `by_path` string branch. -/
def bugDoc : RemoteDocument := ⟨0, "a.pdf", "file:///a.pdf", false, []⟩

/-- The one-element collection holding `bugDoc`. -/
def bugList : XAPreviewDocumentList := ⟨[bugDoc]⟩

/-- C1: evaluating `by_path` at a concrete failing input.  On the same
collection, the raw string `"/a.pdf"` and the equivalent `XAPath` value
built from `"/a.pdf"` give different lookup results (`None` versus the
document), because the source string branch applies the `XAPath` constructor
to the builtin class `str` instead of to the argument, so a string argument
is never normalized to the FilePath form of the given path. -/
theorem c1_by_path_string_and_path_disagree :
    XAPreviewDocumentList.by_path bugList (ByPathArg.ofString "/a.pdf") =
      Option.none ∧
    XAPreviewDocumentList.by_path bugList
      (ByPathArg.ofPath (XAPath.ofVal (PyVal.str "/a.pdf"))) =
      Option.some (XAPreviewDocument.mk bugDoc) ∧
    XAPreviewDocumentList.by_path bugList (ByPathArg.ofString "/a.pdf") ≠
      XAPreviewDocumentList.by_path bugList
        (ByPathArg.ofPath (XAPath.ofVal (PyVal.str "/a.pdf"))) := by
  decide

/-- C2: for every collection and every index `i` within it, the columnar
projection `collection.name()[i]` equals the `name` attribute of the `i`-th
element of the collection, and the projection issues exactly one batched
bridge call (`arrayByApplyingSelector_("name")`), not one call per element. -/
theorem c2_name_projection_batched (l : XAPreviewDocumentList) (i : Nat)
    (h : i < l.xa_elem.length) :
    (XAPreviewDocumentList.name l).fst.get? i =
      Option.some (PyVal.str
        (XAPreviewDocument.name ⟨l.xa_elem.get ⟨i, h⟩⟩).fst) ∧
    (XAPreviewDocumentList.name l).snd = [BridgeCall.batchGetAttr "name"] := by
  constructor
  · simp [XAPreviewDocumentList.name, arrayByApplyingSelector,
      XAPreviewDocument.name, RemoteDocument.getAttr, List.get?_eq_get h]
    exact ⟨l.xa_elem.get ⟨i, h⟩, List.getElem?_eq_getElem h, rfl⟩
  · rfl

/-- Witness for C2 at the fixed two-element collection and index 1. -/
theorem c2_name_projection_batched_witness :
    (XAPreviewDocumentList.name exampleList).fst.get? 1 =
      Option.some (PyVal.str (XAPreviewDocument.name
        ⟨exampleList.xa_elem.get ⟨1, exampleList_len1⟩⟩).fst) ∧
    (XAPreviewDocumentList.name exampleList).snd =
      [BridgeCall.batchGetAttr "name"] :=
  c2_name_projection_batched exampleList 1 exampleList_len1

/-- The `by_name` match predicate holds exactly when the document's name
attribute equals the queried string. -/
theorem byNamePred_iff (x : String) (d : RemoteDocument) :
    (d.getAttr "name" == PyVal.str x) = true ↔ d.docName = x := by
  simp [RemoteDocument.getAttr]

/-- C3: for every collection and query string `x`, `by_name(x)` returns the
first element whose name equals `x` when such an element exists (the
collection splits as `l1 ++ d :: l2` with no match in `l1`), and returns the
explicit absent value `None` — never an exception — when no element matches. -/
theorem c3_by_name_total_lookup (l : XAPreviewDocumentList) (x : String) :
    ((∃ d ∈ l.xa_elem, d.docName = x) →
      ∃ d l1 l2, XAPreviewDocumentList.by_name l x =
          Option.some (XAPreviewDocument.mk d) ∧
        d.docName = x ∧ l.xa_elem = l1 ++ d :: l2 ∧
        ∀ e ∈ l1, e.docName ≠ x) ∧
    ((∀ d ∈ l.xa_elem, d.docName ≠ x) →
      XAPreviewDocumentList.by_name l x = Option.none) := by
  constructor
  · rintro ⟨d, hd, hdx⟩
    have hs : (l.xa_elem.find? (fun e => e.getAttr "name" == PyVal.str x)).isSome := by
      rw [List.find?_isSome]
      exact ⟨d, hd, (byNamePred_iff x d).mpr hdx⟩
    obtain ⟨a, ha⟩ := Option.isSome_iff_exists.mp hs
    have ha2 := ha
    rw [List.find?_eq_some] at ha2
    obtain ⟨hpa, as, bs, heq, hall⟩ := ha2
    refine ⟨a, as, bs, ?_, (byNamePred_iff x a).mp hpa, heq, ?_⟩
    · simp [XAPreviewDocumentList.by_name, XAPreviewDocumentList.by_property, ha]
    · intro e he hex
      have hb := hall e he
      rw [(byNamePred_iff x e).mpr hex] at hb
      simp at hb
  · intro hnone
    have hfind : l.xa_elem.find? (fun e => e.getAttr "name" == PyVal.str x) =
        Option.none := by
      rw [List.find?_eq_none]
      intro e he hp
      exact hnone e he ((byNamePred_iff x e).mp hp)
    simp [XAPreviewDocumentList.by_name, XAPreviewDocumentList.by_property, hfind]

/-- Witness for C3: on the fixed collection the absent query
`"Missing.pdf"` yields the absent value. -/
theorem c3_by_name_total_lookup_witness :
    XAPreviewDocumentList.by_name exampleList "Missing.pdf" = Option.none :=
  (c3_by_name_total_lookup exampleList "Missing.pdf").2 (by decide)

/-- C4: for every string path argument, the application handle's print
method converts the string to the canonical file-URL form before invoking
the bridge's print action: the bridge receives the URL-typed value built by
`initFileURLWithPath`, which is never equal to the raw string value. -/
theorem c4_app_print_string_to_url (app : XAPreviewApplication) (s : String)
    (b : Bool) :
    XAPreviewApplication.print app (AppPrintPath.ofString s) b =
      (app, [BridgeCall.invokeAction BridgeTarget.app
        "print_printDialog_withProperties_"
        [nsurlInitFileURLWithPath s, PyVal.bool b, PyVal.none]]) ∧
    (nsurlInitFileURLWithPath s).isURL = true ∧
    nsurlInitFileURLWithPath s ≠ PyVal.str s := by
  refine ⟨rfl, rfl, fun h => PyVal.noConfusion h⟩

/-- C5: `save(None)` issues `saveAs_in_` with the `None` value in the
destination slot (save-in-place, no destination supplied), while `save(p)`
for a string `p` passes the literal string through to the destination slot
unchanged, with no URL wrapping or normalization. -/
theorem c5_save_in_place_or_literal_path (d : XAPreviewDocument) (p : String) :
    XAPreviewDocument.save d Option.none =
      [BridgeCall.invokeAction (BridgeTarget.document d.xa_elem.docId)
        "saveAs_in_" [PyVal.none, PyVal.none]] ∧
    XAPreviewDocument.save d (Option.some p) =
      [BridgeCall.invokeAction (BridgeTarget.document d.xa_elem.docId)
        "saveAs_in_" [PyVal.none, PyVal.str p]] :=
  ⟨rfl, rfl⟩

/-- C6: the collection's clipboard export returns exactly one platform file
reference per document, in collection order, each being the file-URL form of
that document's path. -/
theorem c6_clipboard_one_ref_per_document (l : XAPreviewDocumentList)
    (i : Nat) (h : i < l.xa_elem.length) :
    (XAPreviewDocumentList.get_clipboard_representation l).fst.length =
      l.xa_elem.length ∧
    (XAPreviewDocumentList.get_clipboard_representation l).fst.get? i =
      Option.some (PyVal.url (l.xa_elem.get ⟨i, h⟩).docPath) := by
  constructor
  · simp [XAPreviewDocumentList.get_clipboard_representation,
      XAPreviewDocumentList.path, arrayByApplyingSelector]
  · simp [XAPreviewDocumentList.get_clipboard_representation,
      XAPreviewDocumentList.path, arrayByApplyingSelector,
      RemoteDocument.getAttr, XAPath.ofVal, nsurlInitFileURLWithPath,
      List.get?_eq_get h]
    exact ⟨l.xa_elem.get ⟨i, h⟩, List.getElem?_eq_getElem h, rfl⟩

/-- Witness for C6 at the fixed two-element collection and index 0. -/
theorem c6_clipboard_one_ref_per_document_witness :
    (XAPreviewDocumentList.get_clipboard_representation exampleList).fst.length =
      exampleList.xa_elem.length ∧
    (XAPreviewDocumentList.get_clipboard_representation exampleList).fst.get? 0 =
      Option.some (PyVal.url
        (exampleList.xa_elem.get ⟨0, exampleList_len0⟩).docPath) :=
  c6_clipboard_one_ref_per_document exampleList 0 exampleList_len0

/-- C7: for every document handle and every argument combination, the
document's print method issues one print action aimed at that specific
document (the bridge receives the document's own reference) and returns the
same handle, permitting method chaining. -/
theorem c7_doc_print_targets_self_and_chains (d : XAPreviewDocument)
    (pp : Option (List (String × PyAtom))) (b : Bool) :
    (XAPreviewDocument.print d pp b).fst = d ∧
    (XAPreviewDocument.print d pp b).snd =
      [BridgeCall.invokeAction (BridgeTarget.document d.xa_elem.docId)
        "print_printDialog_withProperties_"
        [PyVal.ref d.xa_elem.docId, PyVal.bool b, PyVal.dict (pp.getD [])]] := by
  cases pp <;> exact ⟨rfl, rfl⟩

/-- C8: a path argument that is already a file URL is passed to the bridge's
print action unchanged — the bridge receives exactly the given URL value,
with no re-wrapping or normalization. -/
theorem c8_app_print_url_passthrough (app : XAPreviewApplication)
    (u : String) (b : Bool) :
    XAPreviewApplication.print app (AppPrintPath.ofURL u) b =
      (app, [BridgeCall.invokeAction BridgeTarget.app
        "print_printDialog_withProperties_"
        [PyVal.url u, PyVal.bool b, PyVal.none]]) :=
  rfl

/-- C9: printing a document with the property bag omitted or explicitly
`None` makes the bridge receive the empty dictionary as the properties
argument, never the null value. -/
theorem c9_doc_print_none_props_to_empty_dict (d : XAPreviewDocument)
    (b : Bool) :
    (XAPreviewDocument.print d Option.none b).snd =
      [BridgeCall.invokeAction (BridgeTarget.document d.xa_elem.docId)
        "print_printDialog_withProperties_"
        [PyVal.ref d.xa_elem.docId, PyVal.bool b, PyVal.dict []]] ∧
    PyVal.dict [] ≠ PyVal.none :=
  ⟨rfl, fun h => PyVal.noConfusion h⟩

/-- C10: every read-only getter (application `frontmost`, `name`, `version`;
window `properties`, `floating`, `modal`, `titled`; document `properties`,
`name`, `modified`) issues only get-attribute queries to the bridge and
returns its handle — hence the remote state it embeds and every local
field — unchanged: no setter call and no action invocation appears in any
getter's trace. -/
theorem c10_getters_query_only (app : XAPreviewApplication)
    (w : XAPreviewWindow) (d : XAPreviewDocument) :
    ((XAPreviewApplication.frontmost app).2.1 = app ∧
      ((XAPreviewApplication.frontmost app).2.2.all BridgeCall.isGetAttr) = true) ∧
    ((XAPreviewApplication.name app).2.1 = app ∧
      ((XAPreviewApplication.name app).2.2.all BridgeCall.isGetAttr) = true) ∧
    ((XAPreviewApplication.version app).2.1 = app ∧
      ((XAPreviewApplication.version app).2.2.all BridgeCall.isGetAttr) = true) ∧
    ((XAPreviewWindow.properties w).2.1 = w ∧
      ((XAPreviewWindow.properties w).2.2.all BridgeCall.isGetAttr) = true) ∧
    ((XAPreviewWindow.floating w).2.1 = w ∧
      ((XAPreviewWindow.floating w).2.2.all BridgeCall.isGetAttr) = true) ∧
    ((XAPreviewWindow.modal w).2.1 = w ∧
      ((XAPreviewWindow.modal w).2.2.all BridgeCall.isGetAttr) = true) ∧
    ((XAPreviewWindow.titled w).2.1 = w ∧
      ((XAPreviewWindow.titled w).2.2.all BridgeCall.isGetAttr) = true) ∧
    ((XAPreviewDocument.properties d).2.1 = d ∧
      ((XAPreviewDocument.properties d).2.2.all BridgeCall.isGetAttr) = true) ∧
    ((XAPreviewDocument.name d).2.1 = d ∧
      ((XAPreviewDocument.name d).2.2.all BridgeCall.isGetAttr) = true) ∧
    ((XAPreviewDocument.modified d).2.1 = d ∧
      ((XAPreviewDocument.modified d).2.2.all BridgeCall.isGetAttr) = true) :=
  ⟨⟨rfl, rfl⟩, ⟨rfl, rfl⟩, ⟨rfl, rfl⟩, ⟨rfl, rfl⟩, ⟨rfl, rfl⟩,
    ⟨rfl, rfl⟩, ⟨rfl, rfl⟩, ⟨rfl, rfl⟩, ⟨rfl, rfl⟩, ⟨rfl, rfl⟩⟩
